import Mathlib

/-!
Shallow embedding of the tenant-service mirroring controller
(`incubator/virtualcluster/pkg/syncer/controllers/service/controller.go`).

The controller mirrors tenant-cluster Service objects into a host
("super master") cluster.  Pure Go functions become Lean functions; the
host API is modelled as a state machine over an association list keyed by
(namespace, name), with an explicit fault model for injected transient API
errors.  Collaborator packages of this repository that are not part of the
source under study (the `conversion` package, the workqueue, the
multi-cluster controller engine) are modelled from the specification and
marked as such in their doc comments.
-/

set_option autoImplicit false
set_option linter.unusedVariables false

namespace ServiceSyncer

/-- A tenant or host Service object, reduced to the fields the controller
touches: object metadata (namespace, name, resource version, labels) and
the one Spec field the mirroring mutation rewrites (clusterIP). -/
structure Service where
  ns : String
  name : String
  resourceVersion : String
  labels : List (String × String)
  clusterIP : String
  deriving DecidableEq, Repr

/-- The distinguishable error conditions of the host API transport
(`k8s.io/apimachinery/pkg/api/errors`): the two conditions the controller
tests for (`IsAlreadyExists`, `IsNotFound`) plus an arbitrary other
(transient) error. -/
inductive ApiError where
  | alreadyExists
  | notFound
  | other (msg : String)
  deriving DecidableEq, Repr

/-- Host-cluster state visible to this controller: the Services that exist,
as an association list keyed by (namespace, name). -/
abbrev HostState := List ((String × String) × Service)

/-- First Service stored under a given (namespace, name) key, if any. -/
def lookupSvc (st : HostState) (key : String × String) : Option Service :=
  match st with
  | [] => none
  | (k, v) :: rest => if k = key then some v else lookupSvc rest key

/-- Injected transient faults of the host API transport: when a fault is
reported for a call, that call fails with `ApiError.other` and changes no
state.  This models the "any other API error (timeout, conflict,
throttling)" case of the error taxonomy. -/
structure FaultModel where
  createFault : String → Service → Option String
  deleteFault : String → String → Option String

/-- Host API Create (`serviceClient.Services(ns).Create`): fails with the
injected fault if one is present; otherwise fails with `alreadyExists` when
an object with the same key exists, and otherwise stores the object.
Returns the new host state and the error (`none` = nil error). -/
def createCall (fm : FaultModel) (st : HostState) (ns : String)
    (svc : Service) : HostState × Option ApiError :=
  match fm.createFault ns svc with
  | some m => (st, some (ApiError.other m))
  | none =>
    if (lookupSvc st (ns, svc.name)).isSome then
      (st, some ApiError.alreadyExists)
    else
      (((ns, svc.name), svc) :: st, none)

/-- Deletion propagation policy passed by the controller
(`constants.DefaultDeletionPolicy`). -/
def DefaultDeletionPolicy : String := "Background"

/-- Host API Delete (`serviceClient.Services(ns).Delete(name, opts)`):
fails with the injected fault if one is present; otherwise fails with
`notFound` when no object with the key exists, and otherwise removes it.
The propagation policy does not affect the Service map itself. -/
def deleteCall (fm : FaultModel) (st : HostState) (ns name : String)
    (propagationPolicy : String) : HostState × Option ApiError :=
  match fm.deleteFault ns name with
  | some m => (st, some (ApiError.other m))
  | none =>
    if (lookupSvc st (ns, name)).isSome then
      (st.filter (fun e => !(e.1 == (ns, name))), none)
    else
      (st, some ApiError.notFound)

/-- Modelled from the spec: `conversion.ToSuperMasterNamespace` is absent
from the source under study.  Per the spec it is a deterministic, stable
mapping from (tenant cluster identity, tenant namespace) to a host
namespace; modelled as concatenation with a separator. -/
def ToSuperMasterNamespace (cluster ns : String) : String :=
  cluster ++ "-" ++ ns

/-- Modelled from the spec: `conversion.BuildMetadata` is absent from the
source under study.  Per the spec it copies the object, sets its namespace
to the target namespace, and stamps provenance labels recording the source
cluster and source namespace; the name is kept.  Like the Go function it
returns a fallible result, though the modelled construction never fails. -/
def BuildMetadata (cluster targetNamespace : String) (obj : Service) :
    Except String Service :=
  Except.ok
    { obj with
      ns := targetNamespace
      labels := obj.labels ++
        [("tenancy.x-k8s.io/cluster", cluster),
         ("tenancy.x-k8s.io/namespace", obj.ns)] }

/-- Modelled from the spec: `conversion.MutateService` is absent from the
source under study.  Per the spec it is the resource-specific field rewrite
needed for the object to be valid once relocated; for Services this clears
the cluster-scoped IP assignment.  Metadata (namespace, name, labels) is
untouched. -/
def MutateService (svc : Service) : Service :=
  { svc with clusterIP := "" }

/-- `reconcileServiceCreate`: translate the namespace, build the host-side
copy, apply the Service mutation, submit Create to the host API; an
`alreadyExists` failure is masked to a nil error. -/
def reconcileServiceCreate (fm : FaultModel) (st : HostState)
    (cluster ns name : String) (service : Service) :
    HostState × Option ApiError :=
  let targetNamespace := ToSuperMasterNamespace cluster ns
  match BuildMetadata cluster targetNamespace service with
  | Except.error e => (st, some (ApiError.other e))
  | Except.ok newObj =>
    let pService := MutateService newObj
    match createCall fm st targetNamespace pService with
    | (st2, some ApiError.alreadyExists) => (st2, none)
    | (st2, err) => (st2, err)

/-- `reconcileServiceUpdate`: the body is literally `return nil`. -/
def reconcileServiceUpdate (fm : FaultModel) (st : HostState)
    (cluster ns name : String) (service : Service) :
    HostState × Option ApiError :=
  (st, none)

/-- `reconcileServiceRemove`: translate the namespace, submit Delete with
the default propagation policy; a `notFound` failure is masked to a nil
error. -/
def reconcileServiceRemove (fm : FaultModel) (st : HostState)
    (cluster ns name : String) (service : Service) :
    HostState × Option ApiError :=
  let targetNamespace := ToSuperMasterNamespace cluster ns
  match deleteCall fm st targetNamespace name DefaultDeletionPolicy with
  | (st2, some ApiError.notFound) => (st2, none)
  | (st2, err) => (st2, err)

/-- The event kind of a reconciliation request (`reconciler.Event`).  The
reconciler package is absent from the source under study; it provides the
three kinds the dispatcher switches on.  Because the underlying Go type is
open (an enum-like value, not a closed sum), an extra constructor stands
for any value outside the three recognized kinds. -/
inductive Event where
  | AddEvent
  | UpdateEvent
  | DeleteEvent
  | UnrecognizedEvent (tag : String)
  deriving DecidableEq, Repr

/-- The dynamically typed `request.Obj : interface\x7b\x7d`: either a
Service or some other runtime object. -/
inductive RuntimeObject where
  | service (svc : Service)
  | other (tag : String)
  deriving DecidableEq, Repr

/-- A reconciliation request (`reconciler.Request`).  `Cluster` stands for
`request.Cluster.Name`, the only field of the cluster handle the
dispatcher reads. -/
structure Request where
  Cluster : String
  Namespace : String
  Name : String
  Event : Event
  Obj : RuntimeObject
  deriving DecidableEq, Repr

/-- The result returned to the event queue (`reconciler.Result`). -/
structure Result where
  Requeue : Bool
  deriving DecidableEq, Repr

/-- Outcome of one `Reconcile` invocation: either a normal return of the
new host state together with `(reconciler.Result, error)`, or a Go panic
(an unchecked type assertion `request.Obj.(*v1.Service)` failing). -/
inductive ReconcileOutcome where
  | ok (st : HostState) (res : Result) (err : Option ApiError)
  | panicked (msg : String)
  deriving DecidableEq, Repr

/-- Message of the Go runtime panic raised when the unchecked type
assertion in `Reconcile` fails. -/
def conversionPanicMsg : String :=
  "interface conversion: request.Obj is not a *v1.Service"

/-- Whether a `Reconcile` invocation ended in a panic. -/
def isPanic : ReconcileOutcome → Bool
  | ReconcileOutcome.panicked _ => true
  | ReconcileOutcome.ok _ _ _ => false

/-- `Reconcile`: switch on the event kind; each recognized case asserts
`request.Obj.(*v1.Service)` (panicking when the object is not a Service),
runs the matching handler, and on a non-nil error returns
`Result\x7bRequeue: true\x7d` with that error; otherwise control falls
through to `return Result\x7b\x7d, nil`.  An event kind outside the three
cases hits no case and falls through directly. -/
def Reconcile (fm : FaultModel) (st : HostState) (request : Request) :
    ReconcileOutcome :=
  match request.Event with
  | Event.AddEvent =>
    match request.Obj with
    | RuntimeObject.service svc =>
      match reconcileServiceCreate fm st request.Cluster request.Namespace
          request.Name svc with
      | (st2, some e) => ReconcileOutcome.ok st2 ⟨true⟩ (some e)
      | (st2, none) => ReconcileOutcome.ok st2 ⟨false⟩ none
    | RuntimeObject.other _ => ReconcileOutcome.panicked conversionPanicMsg
  | Event.UpdateEvent =>
    match request.Obj with
    | RuntimeObject.service svc =>
      match reconcileServiceUpdate fm st request.Cluster request.Namespace
          request.Name svc with
      | (st2, some e) => ReconcileOutcome.ok st2 ⟨true⟩ (some e)
      | (st2, none) => ReconcileOutcome.ok st2 ⟨false⟩ none
    | RuntimeObject.other _ => ReconcileOutcome.panicked conversionPanicMsg
  | Event.DeleteEvent =>
    match request.Obj with
    | RuntimeObject.service svc =>
      match reconcileServiceRemove fm st request.Cluster request.Namespace
          request.Name svc with
      | (st2, some e) => ReconcileOutcome.ok st2 ⟨true⟩ (some e)
      | (st2, none) => ReconcileOutcome.ok st2 ⟨false⟩ none
    | RuntimeObject.other _ => ReconcileOutcome.panicked conversionPanicMsg
  | Event.UnrecognizedEvent _ => ReconcileOutcome.ok st ⟨false⟩ none

/-! Informer event handling and the work queue (the event handler closures
attached by `Register`, and `enqueueService`). -/

/-- `cache.MetaNamespaceKeyFunc` on a Service: `namespace/name`, or just
`name` for a cluster-scoped (empty-namespace) object. -/
def metaNamespaceKeyFunc (svc : Service) : String :=
  if svc.ns = "" then svc.name else svc.ns ++ "/" ++ svc.name

/-- Modelled from the spec: the rate-limiting workqueue is absent from the
source under study.  Per the spec, `Add` coalesces: re-adding an
already-pending key is a no-op, otherwise the key is appended. -/
def queueAdd (q : List String) (k : String) : List String :=
  if k ∈ q then q else q ++ [k]

/-- `enqueueService`: derive the meta-namespace key and add it to the
queue.  Key extraction on a well-formed Service never fails, so the
error-handling branch of the Go code is not reachable here. -/
def enqueueService (q : List String) (obj : Service) : List String :=
  queueAdd q (metaNamespaceKeyFunc obj)

/-- The `UpdateFunc` closure attached by `Register`: drop the notification
when old and new resource versions coincide, otherwise enqueue the new
object. -/
def updateFunc (q : List String) (oldObj newObj : Service) : List String :=
  if newObj.resourceVersion = oldObj.resourceVersion then q
  else enqueueService q newObj

/-! Controller registration (`Register`) and the cluster registry
(`AddCluster` / `RemoveCluster`). -/

/-- Observable registration state of the controller manager and informer:
which informer event handlers were attached, which controllers were added
to the manager, and which errors were logged.  The multi-cluster
controller engine (`sc.NewController`) is absent from the source under
study; its possible failure is passed in as the `Except` argument of
`Register`. -/
structure RegistrationState where
  eventHandlers : List String
  controllers : List String
  loggedErrors : List String
  deriving DecidableEq, Repr

/-- `Register`: build the controller, then construct the multi-cluster
controller engine.  If construction fails the error is logged and
`Register` returns early: no informer event handler is attached and the
controller is not added to the manager.  On success the Add/Update
handlers are attached and the controller is registered. -/
def Register (newControllerResult : Except String Unit)
    (mgr : RegistrationState) : RegistrationState :=
  match newControllerResult with
  | Except.error e =>
    { mgr with
      loggedErrors := mgr.loggedErrors ++
        ["failed to create multi cluster service controller " ++ e] }
  | Except.ok _ =>
    { mgr with
      eventHandlers := mgr.eventHandlers ++ ["AddFunc", "UpdateFunc"]
      controllers := mgr.controllers ++
        ["tenant-masters-service-controller"] }

/-- Cluster-registry state: the set of tenant clusters currently watched,
alongside the host state (which cluster lifecycle calls may or may not
touch). -/
structure ControllerState where
  watched : List String
  host : HostState
  deriving DecidableEq, Repr

/-- `AddCluster`: calls `WatchClusterResource` to begin watching the
cluster.  `WatchClusterResource` is absent from the source under study and
is modelled from the spec (success path): the cluster is added to the
watched set; the host state is untouched. -/
def AddCluster (cs : ControllerState) (cluster : String) : ControllerState :=
  { cs with
    watched := if cluster ∈ cs.watched then cs.watched
               else cs.watched ++ [cluster] }

/-- `RemoveCluster`: the body is a single warning log,
"not implemented yet".  It changes nothing: the cluster stays watched and
the host state is untouched. -/
def RemoveCluster (cs : ControllerState) (cluster : String) :
    ControllerState :=
  cs

/-! Concrete fixtures used by witnesses and counterexamples. -/

/-- A fault-free host API transport. -/
def fm0 : FaultModel := ⟨fun _ _ => none, fun _ _ => none⟩

/-- The spec scenario: tenant cluster c1, namespace default, Service web. -/
def svcWeb : Service := ⟨"default", "web", "1", [], "10.0.0.1"⟩

/-- The same Service after a real change (new resource version). -/
def svcWebV2 : Service := ⟨"default", "web", "2", [], "10.0.0.1"⟩

/-- The host-side copy of `svcWeb` as built by `BuildMetadata`. -/
def pSvcWeb : Service :=
  ⟨"c1-default", "web", "1",
   [("tenancy.x-k8s.io/cluster", "c1"),
    ("tenancy.x-k8s.io/namespace", "default")],
   "10.0.0.1"⟩

/-- A host state in which the mirrored copy of `svcWeb` already exists. -/
def stWeb : HostState := [(("c1-default", "web"), MutateService pSvcWeb)]

/-- A request whose Obj is not a Service. -/
def badRequest : Request :=
  ⟨"c1", "default", "web", Event.AddEvent, RuntimeObject.other "configmap"⟩

/-- An empty cluster-registry state. -/
def initState : ControllerState := ⟨[], []⟩

/-! Helper lemmas about the host API state machine. -/

/-- When a Create call reports `alreadyExists`, it left the host state
unchanged. -/
theorem createCall_alreadyExists_eq (fm : FaultModel) (st : HostState)
    (ns : String) (svc : Service)
    (h : (createCall fm st ns svc).2 = some ApiError.alreadyExists) :
    createCall fm st ns svc = (st, some ApiError.alreadyExists) := by
  unfold createCall at h ⊢
  cases hf : fm.createFault ns svc with
  | some m => simp [hf] at h
  | none =>
    simp only [hf] at h ⊢
    by_cases hk : (lookupSvc st (ns, svc.name)).isSome
    · simp [hk]
    · simp [hk] at h

/-- When a Delete call reports `notFound`, it left the host state
unchanged. -/
theorem deleteCall_notFound_eq (fm : FaultModel) (st : HostState)
    (ns name pol : String)
    (h : (deleteCall fm st ns name pol).2 = some ApiError.notFound) :
    deleteCall fm st ns name pol = (st, some ApiError.notFound) := by
  unfold deleteCall at h ⊢
  cases hf : fm.deleteFault ns name with
  | some m => simp [hf] at h
  | none =>
    simp only [hf] at h ⊢
    by_cases hk : (lookupSvc st (ns, name)).isSome
    · simp [hk] at h
    · simp [hk]

/-! Claim theorems. -/

/-- Claim C1: for every Create reconciliation request, if the Create call
to the host API fails with an alreadyExists error, `reconcileServiceCreate`
returns a nil error, and `Reconcile` reports success: Result with Requeue
false paired with a nil error. -/
theorem create_alreadyExists_is_success (fm : FaultModel) (st : HostState)
    (c ns n : String) (svc pSvc : Service)
    (hbuild : BuildMetadata c (ToSuperMasterNamespace c ns) svc =
      Except.ok pSvc)
    (hapi : (createCall fm st (ToSuperMasterNamespace c ns)
      (MutateService pSvc)).2 = some ApiError.alreadyExists) :
    reconcileServiceCreate fm st c ns n svc = (st, none) ∧
    Reconcile fm st ⟨c, ns, n, Event.AddEvent, RuntimeObject.service svc⟩ =
      ReconcileOutcome.ok st ⟨false⟩ none := by
  have hcc := createCall_alreadyExists_eq fm st _ _ hapi
  have h1 : reconcileServiceCreate fm st c ns n svc = (st, none) := by
    simp only [reconcileServiceCreate, hbuild, hcc]
  exact ⟨h1, by simp [Reconcile, h1]⟩

/-- Claim C1 witness: with the mirrored copy of svcWeb already present in
the host state, the Create call reports alreadyExists and both the handler
and Reconcile report success. -/
theorem create_alreadyExists_is_success_witness :
    BuildMetadata "c1" (ToSuperMasterNamespace "c1" "default") svcWeb =
      Except.ok pSvcWeb ∧
    (createCall fm0 stWeb (ToSuperMasterNamespace "c1" "default")
      (MutateService pSvcWeb)).2 = some ApiError.alreadyExists ∧
    (reconcileServiceCreate fm0 stWeb "c1" "default" "web" svcWeb =
      (stWeb, none) ∧
     Reconcile fm0 stWeb
       ⟨"c1", "default", "web", Event.AddEvent, RuntimeObject.service svcWeb⟩ =
       ReconcileOutcome.ok stWeb ⟨false⟩ none) :=
  ⟨rfl, by decide,
   create_alreadyExists_is_success fm0 stWeb "c1" "default" "web" svcWeb
     pSvcWeb rfl (by decide)⟩

/-- Claim C2: for every Delete reconciliation request, if the Delete call
to the host API fails with a notFound error, `reconcileServiceRemove`
returns a nil error, and `Reconcile` reports success. -/
theorem delete_notFound_is_success (fm : FaultModel) (st : HostState)
    (c ns n : String) (svc : Service)
    (hapi : (deleteCall fm st (ToSuperMasterNamespace c ns) n
      DefaultDeletionPolicy).2 = some ApiError.notFound) :
    reconcileServiceRemove fm st c ns n svc = (st, none) ∧
    Reconcile fm st ⟨c, ns, n, Event.DeleteEvent, RuntimeObject.service svc⟩ =
      ReconcileOutcome.ok st ⟨false⟩ none := by
  have hdc := deleteCall_notFound_eq fm st _ _ _ hapi
  have h1 : reconcileServiceRemove fm st c ns n svc = (st, none) := by
    simp only [reconcileServiceRemove, hdc]
  exact ⟨h1, by simp [Reconcile, h1]⟩

/-- Claim C2 witness: deleting the web Service from an empty host state
reports notFound, and both the handler and Reconcile report success. -/
theorem delete_notFound_is_success_witness :
    (deleteCall fm0 [] (ToSuperMasterNamespace "c1" "default") "web"
      DefaultDeletionPolicy).2 = some ApiError.notFound ∧
    (reconcileServiceRemove fm0 [] "c1" "default" "web" svcWeb =
      ([], none) ∧
     Reconcile fm0 []
       ⟨"c1", "default", "web", Event.DeleteEvent,
        RuntimeObject.service svcWeb⟩ =
       ReconcileOutcome.ok [] ⟨false⟩ none) :=
  ⟨by decide,
   delete_notFound_is_success fm0 [] "c1" "default" "web" svcWeb (by decide)⟩

/-- Claim C3: for each of the three recognized event kinds, `Reconcile`
returns exactly the host state the handler produced, with Requeue true
paired with the handler error when that error is non-nil, and Requeue
false with a nil error when the handler succeeded. -/
theorem reconcile_propagates_handler_errors (fm : FaultModel)
    (st : HostState) (c ns n : String) (svc : Service) :
    (Reconcile fm st ⟨c, ns, n, Event.AddEvent, RuntimeObject.service svc⟩ =
      ReconcileOutcome.ok (reconcileServiceCreate fm st c ns n svc).1
        ⟨(reconcileServiceCreate fm st c ns n svc).2.isSome⟩
        (reconcileServiceCreate fm st c ns n svc).2) ∧
    (Reconcile fm st ⟨c, ns, n, Event.UpdateEvent, RuntimeObject.service svc⟩ =
      ReconcileOutcome.ok (reconcileServiceUpdate fm st c ns n svc).1
        ⟨(reconcileServiceUpdate fm st c ns n svc).2.isSome⟩
        (reconcileServiceUpdate fm st c ns n svc).2) ∧
    (Reconcile fm st ⟨c, ns, n, Event.DeleteEvent, RuntimeObject.service svc⟩ =
      ReconcileOutcome.ok (reconcileServiceRemove fm st c ns n svc).1
        ⟨(reconcileServiceRemove fm st c ns n svc).2.isSome⟩
        (reconcileServiceRemove fm st c ns n svc).2) := by
  refine ⟨?_, ?_, ?_⟩
  · rcases h : reconcileServiceCreate fm st c ns n svc with ⟨st2, err⟩
    cases err <;> simp [Reconcile, h]
  · rcases h : reconcileServiceUpdate fm st c ns n svc with ⟨st2, err⟩
    cases err <;> simp [Reconcile, h]
  · rcases h : reconcileServiceRemove fm st c ns n svc with ⟨st2, err⟩
    cases err <;> simp [Reconcile, h]

/-- Claim C4: the Create handler computes the target namespace with
`ToSuperMasterNamespace`, builds the host copy with `BuildMetadata` at
that namespace, applies `MutateService`, and creates the result in exactly
the translated namespace; afterwards the mirrored object is found at the
translated namespace under the tenant name, its namespace field is the
translated namespace, and its name equals the tenant name. -/
theorem create_places_object_in_translated_namespace (fm : FaultModel)
    (st : HostState) (c ns n : String) (svc pSvc : Service)
    (hbuild : BuildMetadata c (ToSuperMasterNamespace c ns) svc =
      Except.ok pSvc)
    (hfault : fm.createFault (ToSuperMasterNamespace c ns)
      (MutateService pSvc) = none)
    (habsent : lookupSvc st
      (ToSuperMasterNamespace c ns, (MutateService pSvc).name) = none) :
    reconcileServiceCreate fm st c ns n svc =
      (((ToSuperMasterNamespace c ns, (MutateService pSvc).name),
        MutateService pSvc) :: st, none) ∧
    (MutateService pSvc).ns = ToSuperMasterNamespace c ns ∧
    (MutateService pSvc).name = svc.name ∧
    lookupSvc
      (((ToSuperMasterNamespace c ns, (MutateService pSvc).name),
        MutateService pSvc) :: st)
      (ToSuperMasterNamespace c ns, svc.name) = some (MutateService pSvc) := by
  have hp : pSvc =
      { svc with
        ns := ToSuperMasterNamespace c ns
        labels := svc.labels ++
          [("tenancy.x-k8s.io/cluster", c),
           ("tenancy.x-k8s.io/namespace", svc.ns)] } := by
    have := hbuild
    simp only [BuildMetadata, Except.ok.injEq] at this
    exact this.symm
  subst hp
  refine ⟨?_, rfl, rfl, ?_⟩
  · simp only [reconcileServiceCreate, hbuild, createCall, hfault]
    simp [MutateService] at habsent ⊢
    simp [habsent]
  · simp [lookupSvc, MutateService]

/-- Claim C4 witness: creating the web Service of tenant cluster c1 into
an empty host state places the mutated host copy at (c1-default, web). -/
theorem create_places_object_in_translated_namespace_witness :
    BuildMetadata "c1" (ToSuperMasterNamespace "c1" "default") svcWeb =
      Except.ok pSvcWeb ∧
    fm0.createFault (ToSuperMasterNamespace "c1" "default")
      (MutateService pSvcWeb) = none ∧
    lookupSvc []
      (ToSuperMasterNamespace "c1" "default", (MutateService pSvcWeb).name) =
      none ∧
    (reconcileServiceCreate fm0 [] "c1" "default" "web" svcWeb =
      (((ToSuperMasterNamespace "c1" "default",
         (MutateService pSvcWeb).name), MutateService pSvcWeb) :: [], none) ∧
     (MutateService pSvcWeb).ns = ToSuperMasterNamespace "c1" "default" ∧
     (MutateService pSvcWeb).name = svcWeb.name ∧
     lookupSvc
       (((ToSuperMasterNamespace "c1" "default",
          (MutateService pSvcWeb).name), MutateService pSvcWeb) :: [])
       (ToSuperMasterNamespace "c1" "default", svcWeb.name) =
       some (MutateService pSvcWeb)) :=
  ⟨rfl, rfl, by decide,
   create_places_object_in_translated_namespace fm0 [] "c1" "default" "web"
     svcWeb pSvcWeb rfl rfl (by decide)⟩

/-- Claim C5: the Update handler is a no-op: it always returns a nil error
and leaves the host state unchanged, and `Reconcile` on an UpdateEvent
reports success with the host state untouched. -/
theorem update_is_noop (fm : FaultModel) (st : HostState) (c ns n : String)
    (svc : Service) :
    reconcileServiceUpdate fm st c ns n svc = (st, none) ∧
    Reconcile fm st ⟨c, ns, n, Event.UpdateEvent, RuntimeObject.service svc⟩ =
      ReconcileOutcome.ok st ⟨false⟩ none :=
  ⟨rfl, rfl⟩

/-- Claim C6: an update notification with unchanged resource version is
dropped before the queue (the queue is untouched); one with a changed
resource version enqueues the key of the new object (coalesced into the
pending set). -/
theorem resync_suppression (q : List String) (oldObj newObj : Service) :
    (newObj.resourceVersion = oldObj.resourceVersion →
      updateFunc q oldObj newObj = q) ∧
    (newObj.resourceVersion ≠ oldObj.resourceVersion →
      updateFunc q oldObj newObj = queueAdd q (metaNamespaceKeyFunc newObj) ∧
      metaNamespaceKeyFunc newObj ∈ updateFunc q oldObj newObj) := by
  constructor
  · intro h
    simp [updateFunc, h]
  · intro h
    refine ⟨by simp [updateFunc, h, enqueueService], ?_⟩
    simp only [updateFunc, h, if_neg h, enqueueService, queueAdd]
    by_cases hk : metaNamespaceKeyFunc newObj ∈ q
    · simp [hk]
    · simp [hk]

/-- Claim C6 witness: a resync notification for the unchanged web Service
leaves the queue empty; a real change enqueues the key default/web. -/
theorem resync_suppression_witness :
    updateFunc [] svcWeb svcWeb = [] ∧
    updateFunc [] svcWeb svcWebV2 = ["default/web"] :=
  ⟨(resync_suppression [] svcWeb svcWeb).1 rfl,
   ((resync_suppression [] svcWeb svcWebV2).2 (by decide)).1.trans (by decide)⟩

/-- Claim C7 counterexample: at the concrete request whose Obj is not a
Service, `Reconcile` panics (the unchecked type assertion fails) instead of
returning an error, so the claim that the malformed object is surfaced as
an ordinary returned error is false. -/
theorem malformed_obj_not_an_error_cex :
    isPanic (Reconcile fm0 [] badRequest) = true ∧
    Reconcile fm0 [] badRequest =
      ReconcileOutcome.panicked conversionPanicMsg :=
  ⟨rfl, rfl⟩

/-- Claim C7 amended: for each of the three recognized event kinds, a
request whose Obj is not a Service makes `Reconcile` panic with the
interface-conversion message: the failure crashes the worker rather than
being returned as an error. -/
theorem malformed_obj_panics (fm : FaultModel) (st : HostState)
    (c ns n tag : String) :
    Reconcile fm st ⟨c, ns, n, Event.AddEvent, RuntimeObject.other tag⟩ =
      ReconcileOutcome.panicked conversionPanicMsg ∧
    Reconcile fm st ⟨c, ns, n, Event.UpdateEvent, RuntimeObject.other tag⟩ =
      ReconcileOutcome.panicked conversionPanicMsg ∧
    Reconcile fm st ⟨c, ns, n, Event.DeleteEvent, RuntimeObject.other tag⟩ =
      ReconcileOutcome.panicked conversionPanicMsg :=
  ⟨rfl, rfl, rfl⟩

/-- Claim C8: `RemoveCluster` is an unimplemented no-op.  The host state
is indeed unchanged, but the cluster is not removed from the watched set:
after AddCluster c1 followed by RemoveCluster c1, the registry state is
identical and c1 is still watched, contradicting the part of the claim
that says watching stops. -/
theorem removeCluster_not_implemented :
    RemoveCluster (AddCluster initState "c1") "c1" = AddCluster initState "c1" ∧
    "c1" ∈ (RemoveCluster (AddCluster initState "c1") "c1").watched ∧
    (RemoveCluster (AddCluster initState "c1") "c1").host =
      (AddCluster initState "c1").host :=
  ⟨rfl, by decide, rfl⟩

/-- Claim C9: when the multi-cluster controller engine construction fails,
`Register` logs the error and returns early: no informer event handler is
attached and no controller is added to the manager. -/
theorem register_aborts_on_engine_failure (e : String)
    (mgr : RegistrationState) :
    (Register (Except.error e) mgr).eventHandlers = mgr.eventHandlers ∧
    (Register (Except.error e) mgr).controllers = mgr.controllers ∧
    (Register (Except.error e) mgr).loggedErrors =
      mgr.loggedErrors ++
        ["failed to create multi cluster service controller " ++ e] :=
  ⟨rfl, rfl, rfl⟩

/-- Claim C10: a reconciliation request whose event kind is none of the
three recognized kinds falls through the switch: the host state is
untouched and `Reconcile` returns Result with Requeue false and a nil
error. -/
theorem unrecognized_event_is_success (fm : FaultModel) (st : HostState)
    (c ns n tag : String) (obj : RuntimeObject) :
    Reconcile fm st ⟨c, ns, n, Event.UnrecognizedEvent tag, obj⟩ =
      ReconcileOutcome.ok st ⟨false⟩ none :=
  rfl

end ServiceSyncer
